import Mathlib

set_option maxRecDepth 10000

/-!
Shallow embedding of the `POST /generate` pipeline of the ui-generator-backend
repository (Express handler in the main server file). The handler destructures
`message` and `previousCode` from the JSON request body, guards on the
truthiness of `message`, then drives three sequential model-client calls
(planner, generator, explainer), parsing the planner completion with
`JSON.parse` and serializing the parsed plan with `JSON.stringify(plan, null, 2)`
into the later prompts. Any thrown error is caught and mapped to a flat
`500 \x7b "message": "Internal server error" \x7d` response.

JavaScript values that can appear in the request body are modelled by
`JsValue`; JSON documents by `Json` with a full strict-JSON parser
(`jsonParse`, modelling `JSON.parse`) and a 2-space pretty printer
(`jsonStringify2`, modelling `JSON.stringify(x, null, 2)`). The model client
is an opaque collaborator, modelled as a function from the call index to
either a completion string or a thrown error.
-/

namespace UIGenBackend

/-- A JavaScript value as it can occur in a parsed JSON request body (plus
`undefined` for an absent field after destructuring). Objects and arrays are
collapsed to one constructor since the handler only ever coerces them to
strings or tests their truthiness, and both operations agree on all objects. -/
inductive JsValue where
  | vUndefined
  | vNull
  | vBool (b : Bool)
  | vNum (n : Int)
  | vStr (s : String)
  | vObj
deriving Repr, DecidableEq

/-- JavaScript truthiness of a `JsValue`: `undefined`, `null`, `false`, `0`
and `""` are falsy, everything else (objects included) is truthy. -/
def jsTruthy : JsValue → Bool
  | JsValue.vUndefined => false
  | JsValue.vNull => false
  | JsValue.vBool b => b
  | JsValue.vNum n => n != 0
  | JsValue.vStr s => s != ""
  | JsValue.vObj => true

/-- JavaScript string coercion `String(v)` as used by template-literal
interpolation `$\x7bv\x7d`. -/
def jsToString : JsValue → String
  | JsValue.vUndefined => "undefined"
  | JsValue.vNull => "null"
  | JsValue.vBool true => "true"
  | JsValue.vBool false => "false"
  | JsValue.vNum n => toString n
  | JsValue.vStr s => s
  | JsValue.vObj => "[object Object]"

/-- JavaScript `a || b`: `a` when truthy, otherwise `b`. -/
def jsOr (a b : JsValue) : JsValue :=
  if jsTruthy a then a else b

/-- A parsed JSON document. Numbers keep their source lexeme, which is enough
for every property considered here (no claim depends on numeric-value
canonicalization). -/
inductive Json where
  | null
  | bool (b : Bool)
  | num (lexeme : String)
  | str (s : String)
  | arr (elems : List Json)
  | obj (members : List (String × Json))
deriving Repr

/-- Field lookup in a member list (first match; parsing keeps at most one
member per key, mirroring `JSON.parse`'s last-wins duplicate handling). -/
def lookupMember : List (String × Json) → String → Option Json
  | [], _ => none
  | (k2, v) :: rest, k => if k2 = k then some v else lookupMember rest k

/-- `j[k]` for an object, `none` otherwise. -/
def jsonLookup (j : Json) (k : String) : Option Json :=
  match j with
  | Json.obj ms => lookupMember ms k
  | _ => none

/-- Insert a member, overwriting the value at an existing key in place
(JavaScript object semantics: first-occurrence position, last value wins). -/
def objInsert (k : String) (v : Json) : List (String × Json) → List (String × Json)
  | [] => [(k, v)]
  | (k2, v2) :: rest => if k2 = k then (k2, v) :: rest else (k2, v2) :: objInsert k v rest

/-- The whitespace `JSON.parse` skips between tokens (JSON grammar: space,
tab, line feed, carriage return). -/
def isJsonWs (c : Char) : Bool :=
  c == ' ' || c == '\t' || c == '\n' || c == '\r'

/-- Drop leading JSON whitespace. -/
def skipWs : List Char → List Char
  | [] => []
  | c :: rest => if isJsonWs c then skipWs rest else c :: rest

/-- Value of one hexadecimal digit. -/
def hexCharVal (c : Char) : Option Nat :=
  if '0' ≤ c ∧ c ≤ '9' then some (c.toNat - 48)
  else if 'a' ≤ c ∧ c ≤ 'f' then some (c.toNat - 87)
  else if 'A' ≤ c ∧ c ≤ 'F' then some (c.toNat - 55)
  else none

/-- Body of a JSON string literal after the opening quote: returns the decoded
characters and the input remaining after the closing quote. Handles the JSON
escapes, rejects unescaped control characters, combines `\uXXXX` surrogate
pairs, and maps a lone surrogate to U+FFFD (Lean characters are scalar
values). -/
def parseStrBody : Nat → List Char → Option (List Char × List Char)
  | 0, _ => none
  | fuel + 1, l =>
    match l with
    | [] => none
    | c :: rest =>
      if c = '\x22' then some ([], rest)
      else if c = '\\' then
        match rest with
        | 'u' :: h1 :: h2 :: h3 :: h4 :: rest2 =>
          (match hexCharVal h1, hexCharVal h2, hexCharVal h3, hexCharVal h4 with
           | some a, some b, some d1, some d2 =>
             let n := a * 4096 + b * 256 + d1 * 16 + d2
             if 55296 ≤ n ∧ n ≤ 56319 then
               match rest2 with
               | '\\' :: 'u' :: g1 :: g2 :: g3 :: g4 :: rest3 =>
                 (match hexCharVal g1, hexCharVal g2, hexCharVal g3, hexCharVal g4 with
                  | some a2, some b2, some e1, some e2 =>
                    let n2 := a2 * 4096 + b2 * 256 + e1 * 16 + e2
                    if 56320 ≤ n2 ∧ n2 ≤ 57343 then
                      (parseStrBody fuel rest3).map
                        (fun p => (Char.ofNat (65536 + (n - 55296) * 1024 + (n2 - 56320)) :: p.1, p.2))
                    else
                      (parseStrBody fuel rest2).map (fun p => (Char.ofNat 65533 :: p.1, p.2))
                  | _, _, _, _ =>
                      (parseStrBody fuel rest2).map (fun p => (Char.ofNat 65533 :: p.1, p.2)))
               | _ => (parseStrBody fuel rest2).map (fun p => (Char.ofNat 65533 :: p.1, p.2))
             else if 56320 ≤ n ∧ n ≤ 57343 then
               (parseStrBody fuel rest2).map (fun p => (Char.ofNat 65533 :: p.1, p.2))
             else
               (parseStrBody fuel rest2).map (fun p => (Char.ofNat n :: p.1, p.2))
           | _, _, _, _ => none)
        | e :: rest2 =>
          (match
             (if e = '\x22' then some '\x22'
              else if e = '\\' then some '\\'
              else if e = '/' then some '/'
              else if e = 'b' then some '\x08'
              else if e = 'f' then some '\x0c'
              else if e = 'n' then some '\n'
              else if e = 'r' then some '\r'
              else if e = 't' then some '\t'
              else none) with
           | some ch => (parseStrBody fuel rest2).map (fun p => (ch :: p.1, p.2))
           | none => none)
        | [] => none
      else if c.toNat < 32 then none
      else (parseStrBody fuel rest).map (fun p => (c :: p.1, p.2))

/-- Longest prefix of decimal digits, with the remaining input. -/
def spanDigits : List Char → List Char × List Char
  | [] => ([], [])
  | c :: rest =>
    if '0' ≤ c ∧ c ≤ '9' then
      let p := spanDigits rest
      (c :: p.1, p.2)
    else ([], c :: rest)

/-- A JSON number lexeme (`-? int frac? exp?`, no leading zeros), returned
verbatim together with the remaining input. -/
def parseNumLexeme (l : List Char) : Option (List Char × List Char) :=
  let signAndRest : List Char × List Char :=
    match l with
    | '-' :: rest => (['-'], rest)
    | _ => ([], l)
  let sign := signAndRest.1
  let l1 := signAndRest.2
  let intPart? : Option (List Char × List Char) :=
    match l1 with
    | '0' :: rest => some (['0'], rest)
    | c :: rest =>
      if '1' ≤ c ∧ c ≤ '9' then
        let p := spanDigits rest
        some (c :: p.1, p.2)
      else none
    | [] => none
  match intPart? with
  | none => none
  | some (ip, rest1) =>
    let fracPart : Option (List Char × List Char) :=
      match rest1 with
      | '.' :: rest2 =>
        let p := spanDigits rest2
        if p.1.isEmpty then none else some ('.' :: p.1, p.2)
      | _ => some ([], rest1)
    match fracPart with
    | none => none
    | some (fp, rest2) =>
      let expPart : Option (List Char × List Char) :=
        match rest2 with
        | c :: rest3 =>
          if c = 'e' ∨ c = 'E' then
            let signedRest : List Char × List Char :=
              match rest3 with
              | '+' :: r => (['+'], r)
              | '-' :: r => (['-'], r)
              | _ => ([], rest3)
            let p := spanDigits signedRest.2
            if p.1.isEmpty then none else some (c :: signedRest.1 ++ p.1, p.2)
          else some ([], c :: rest3)
        | [] => some ([], [])
      match expPart with
      | none => none
      | some (ep, rest3) => some (sign ++ ip ++ fp ++ ep, rest3)

mutual

/-- Strict JSON value parser (recursive descent on a fuel counter; every fuel
decrement accompanies consuming at least one input character, so
`2 * length + 2` fuel always suffices at top level). -/
def parseVal : Nat → List Char → Option (Json × List Char)
  | 0, _ => none
  | fuel + 1, l =>
    match skipWs l with
    | 'n' :: 'u' :: 'l' :: 'l' :: rest => some (Json.null, rest)
    | 't' :: 'r' :: 'u' :: 'e' :: rest => some (Json.bool true, rest)
    | 'f' :: 'a' :: 'l' :: 's' :: 'e' :: rest => some (Json.bool false, rest)
    | '\x22' :: rest =>
      (parseStrBody (rest.length + 1) rest).map (fun p => (Json.str (String.mk p.1), p.2))
    | '[' :: rest =>
      (match skipWs rest with
       | ']' :: rest2 => some (Json.arr [], rest2)
       | l2 => (parseArrItems fuel l2 []).map (fun p => (Json.arr p.1, p.2)))
    | '\x7b' :: rest =>
      (match skipWs rest with
       | '\x7d' :: rest2 => some (Json.obj [], rest2)
       | l2 => (parseObjMembers fuel l2 []).map (fun p => (Json.obj p.1, p.2)))
    | l2 => (parseNumLexeme l2).map (fun p => (Json.num (String.mk p.1), p.2))

/-- One-or-more comma-separated array items up to the closing bracket. -/
def parseArrItems : Nat → List Char → List Json → Option (List Json × List Char)
  | 0, _, _ => none
  | fuel + 1, l, acc =>
    match parseVal fuel l with
    | none => none
    | some (v, rest) =>
      match skipWs rest with
      | ',' :: rest2 => parseArrItems fuel rest2 (acc ++ [v])
      | ']' :: rest2 => some (acc ++ [v], rest2)
      | _ => none

/-- One-or-more `"key": value` object members up to the closing brace. -/
def parseObjMembers :
    Nat → List Char → List (String × Json) → Option (List (String × Json) × List Char)
  | 0, _, _ => none
  | fuel + 1, l, acc =>
    match skipWs l with
    | '\x22' :: rest =>
      (match parseStrBody (rest.length + 1) rest with
       | none => none
       | some (kcs, rest2) =>
         match skipWs rest2 with
         | ':' :: rest3 =>
           (match parseVal fuel rest3 with
            | none => none
            | some (v, rest4) =>
              let acc2 := objInsert (String.mk kcs) v acc
              match skipWs rest4 with
              | ',' :: rest5 => parseObjMembers fuel rest5 acc2
              | '\x7d' :: rest5 => some (acc2, rest5)
              | _ => none)
         | _ => none)
    | _ => none

end

/-- `JSON.parse`: parse one JSON value, allowing surrounding whitespace and
rejecting any trailing input; `none` models a thrown `SyntaxError`. -/
def jsonParse (s : String) : Option Json :=
  match parseVal (2 * s.length + 2) s.data with
  | some (v, rest) => if (skipWs rest).isEmpty then some v else none
  | none => none

/-- A run of `n` spaces. -/
def spacesStr (n : Nat) : String :=
  String.mk (List.replicate n ' ')

/-- Lowercase hexadecimal digit. -/
def hexDigitChar (n : Nat) : Char :=
  if n < 10 then Char.ofNat (48 + n) else Char.ofNat (87 + n)

/-- `\uXXXX` escape for a code point below 0x10000. -/
def uEscape (n : Nat) : String :=
  String.mk ['\\', 'u', hexDigitChar (n / 4096 % 16), hexDigitChar (n / 256 % 16),
    hexDigitChar (n / 16 % 16), hexDigitChar (n % 16)]

/-- `JSON.stringify` escaping for one character inside a string literal. -/
def jsonEscapeChar (c : Char) : String :=
  if c = '\x22' then String.mk ['\\', '\x22']
  else if c = '\\' then String.mk ['\\', '\\']
  else if c = '\x08' then String.mk ['\\', 'b']
  else if c = '\x0c' then String.mk ['\\', 'f']
  else if c = '\n' then String.mk ['\\', 'n']
  else if c = '\r' then String.mk ['\\', 'r']
  else if c = '\t' then String.mk ['\\', 't']
  else if c.toNat < 32 then uEscape c.toNat
  else String.singleton c

/-- A JSON string literal for `s`, quotes included. -/
def jsonQuote (s : String) : String :=
  "\x22" ++ String.join (s.data.map jsonEscapeChar) ++ "\x22"

/-- Pretty printer behind `JSON.stringify(x, null, 2)`: `ind` is the current
indentation, the fuel decreases once per nesting level. -/
def renderJson : Nat → Nat → Json → String
  | 0, _, _ => ""
  | fuel + 1, ind, j =>
    match j with
    | Json.null => "null"
    | Json.bool true => "true"
    | Json.bool false => "false"
    | Json.num s => s
    | Json.str s => jsonQuote s
    | Json.arr [] => "[]"
    | Json.arr xs =>
      "[\n" ++
        String.intercalate (",\n")
          (xs.map (fun e => spacesStr (ind + 2) ++ renderJson fuel (ind + 2) e)) ++
        "\n" ++ spacesStr ind ++ "]"
    | Json.obj [] => "\x7b\x7d"
    | Json.obj ms =>
      "\x7b\n" ++
        String.intercalate (",\n")
          (ms.map (fun kv =>
            spacesStr (ind + 2) ++ jsonQuote kv.1 ++ ": " ++ renderJson fuel (ind + 2) kv.2)) ++
        "\n" ++ spacesStr ind ++ "\x7d"

mutual

/-- Structural size of a document; strictly dominates the nesting depth, so it
is a sufficient fuel for `renderJson`. -/
def jsonSize : Json → Nat
  | Json.null => 1
  | Json.bool _ => 1
  | Json.num _ => 1
  | Json.str _ => 1
  | Json.arr xs => 1 + jsonSizeList xs
  | Json.obj ms => 1 + jsonSizeMembers ms

def jsonSizeList : List Json → Nat
  | [] => 0
  | x :: xs => jsonSize x + jsonSizeList xs

def jsonSizeMembers : List (String × Json) → Nat
  | [] => 0
  | kv :: ms => jsonSize kv.2 + jsonSizeMembers ms

end

/-- `JSON.stringify(j, null, 2)` (the `jsonSize` fuel strictly dominates the
nesting depth, so the fuel never runs out). -/
def jsonStringify2 (j : Json) : String :=
  renderJson (jsonSize j) 0 j

/-- The characters `String.prototype.trim` strips (ECMAScript WhiteSpace and
LineTerminator sets). -/
def isJsTrimWs (c : Char) : Bool :=
  let n := c.toNat
  n == 32 || n == 9 || n == 10 || n == 13 || n == 11 || n == 12 ||
  n == 160 || n == 65279 || n == 5760 ||
  (Nat.ble 8192 n && Nat.ble n 8202) ||
  n == 8232 || n == 8233 || n == 8239 || n == 8287 || n == 12288

/-- `String.prototype.trim`. -/
def jsTrim (s : String) : String :=
  String.mk (((s.data.dropWhile isJsTrimWs).reverse.dropWhile isJsTrimWs).reverse)

/-- The `ALLOWED_COMPONENTS` constant of the server file. -/
def ALLOWED_COMPONENTS : List String :=
  ["Button", "Card", "Input", "Sidebar", "Navbar", "Modal", "Chart"]

/-- `$\x7bpreviousCode || "None"\x7d`: the text interpolated into the
PREVIOUS UI section of the planner and generator templates. -/
def prevUIText (previousCode : JsValue) : String :=
  jsToString (jsOr previousCode (JsValue.vStr ("None")))

/-- The planner template literal up to (and including) the quote that precedes
the interpolated `message`. -/
def plannerHeader : String := "
You are a deterministic UI planner.

Your job is to analyze the user request and return a structured JSON plan.

ALLOWED COMPONENTS AND REQUIRED PROPS

1) Sidebar
   Required props:
   - header: string
   - items: array of \x7b label: string \x7d

2) Card
   Required props:
   - title: string
   - content: string
   - description: string

3) Button
   Required props:
   - label: string

4) Input
   Required props:
   - placeholder: string

5) Navbar
   Required props:
   - title: string

6) Modal
   Required props:
   - title: string

7) Chart
   Required props:
   - title: string

PLANNING RULES

- Use ONLY the allowed components listed above.
- Every component MUST include all required props.
- Do NOT leave props empty.
- If previous UI exists, modify it instead of rewriting completely.
- Preserve existing components unless explicitly removed.
- Be minimal and structured.

OUTPUT FORMAT (STRICT JSON ONLY)

\x7b
  \"type\": \"create\" OR \"modify\",
  \"components\": [
    \x7b
      \"name\": \"ComponentName\",
      \"props\": \x7b
        // required props here
      \x7d
    \x7d
  ]
\x7d

- Return ONLY valid JSON.
- Do NOT include explanation.
- Do NOT include code.
- Do NOT wrap in markdown.
- Do NOT include extra text.

USER REQUEST:
\x22"

/-- The planner template literal between the interpolated `message` and the
interpolated previous-UI text. -/
def plannerMid : String := "\x22

PREVIOUS UI:
"

/-- `plannerPrompt` of the handler: the planner template literal with
`message` and `previousCode || "None"` interpolated. -/
def plannerPrompt (message previousCode : JsValue) : String :=
  plannerHeader ++ jsToString message ++ plannerMid ++ prevUIText previousCode ++ "\n"

/-- The generator template literal up to (and including) the line `PLAN:`,
after which the serialized plan is interpolated. -/
def generatorHeader : String := "
You are a deterministic React UI code generator.

Your job is to convert a structured UI plan into valid JSX.

ALLOWED COMPONENTS AND PROPS

1) Sidebar
   Props:
   - header: string
   - items: array of \x7b label: string \x7d

2) Card
   Props:
   - title: string
   - content: string
   - description: string

3) Button
   Props:
   - label: string

4) Input
   Props:
   - placeholder: string

5) Navbar
   Props:
   - title: string

6) Modal
   Props:
   - title: string

7) Chart
   Props:
   - title: string

STRICT RULES (MUST FOLLOW)

- If plan.type is \"modify\":
  - Preserve existing components unless explicitly removed.
  - Only add, update, or remove what is necessary.
  - Do NOT rewrite everything.
- If plan.type is \"create\":
  - Build full UI from scratch.

- Use ONLY the components listed above.
- Use ONLY the props defined above.
- Do NOT invent new props.
- Do NOT use div.
- Do NOT use className.
- Do NOT use inline styles.
- Do NOT import anything.
- Do NOT add comments.
- Do NOT wrap output in markdown.
- Return ONLY pure JSX.
- Return a single React fragment (<>...</>).
- Do not explain anything.

PLAN:
"

/-- The generator template literal between the interpolated serialized plan
and the interpolated previous-UI text. -/
def generatorMid : String := "

PREVIOUS UI:
"

/-- `generatorPrompt` of the handler: the generator template literal with
`JSON.stringify(plan, null, 2)` and `previousCode || "None"` interpolated. -/
def generatorPrompt (plan : Json) (previousCode : JsValue) : String :=
  generatorHeader ++ jsonStringify2 plan ++ generatorMid ++ prevUIText previousCode ++ "\n"

/-- The explainer template literal up to the interpolated serialized plan
(the source indents this template by eight spaces). -/
def explainerHeader : String := "
        explain in plan english why these components were selected.

        plan: "

/-- `explainerPrompt` of the handler: the explainer template literal with
`JSON.stringify(plan, null, 2)` interpolated. -/
def explainerPrompt (plan : Json) : String :=
  explainerHeader ++ jsonStringify2 plan ++ "\n        "

/-- The JSON request body after `const \x7b message, previousCode \x7d = req.body`:
a missing field destructures to `undefined` (`JsValue.vUndefined`). -/
structure ReqBody where
  message : JsValue
  previousCode : JsValue

/-- An HTTP response: status code and JSON body. -/
structure HttpResponse where
  status : Nat
  body : Json

/-- One request's observable outcome: the HTTP response together with the
prompts sent to the model client, in order of invocation. -/
structure Outcome where
  response : HttpResponse
  calls : List String

/-- The body of every `500` response produced by the catch-all handler. -/
def internalErrorBody : Json :=
  Json.obj [(("message"), Json.str ("Internal server error"))]

/-- The body of the `400` response produced by the message guard. -/
def missingMessageBody : Json :=
  Json.obj [(("message"), Json.str ("Input message required"))]

/-- The `app.post('/generate')` handler. The model client is an opaque
collaborator: `stub n` is the outcome of its `n`-th call in this request
(`Except.error ()` models a thrown transport/provider error, which the
handler's catch-all converts to the flat 500). `JSON.parse` failure on the
trimmed planner completion throws, landing in the same catch-all. -/
def generateHandler (stub : Nat → Except Unit String) (req : ReqBody) : Outcome :=
  if jsTruthy req.message then
    let p1 := plannerPrompt req.message req.previousCode
    match stub 0 with
    | Except.error _ => ⟨⟨500, internalErrorBody⟩, [p1]⟩
    | Except.ok t1 =>
      match jsonParse (jsTrim t1) with
      | none => ⟨⟨500, internalErrorBody⟩, [p1]⟩
      | some plan =>
        let p2 := generatorPrompt plan req.previousCode
        match stub 1 with
        | Except.error _ => ⟨⟨500, internalErrorBody⟩, [p1, p2]⟩
        | Except.ok code =>
          let p3 := explainerPrompt plan
          match stub 2 with
          | Except.error _ => ⟨⟨500, internalErrorBody⟩, [p1, p2, p3]⟩
          | Except.ok explanation =>
            ⟨⟨200, Json.obj [(("plan"), plan), (("code"), Json.str code),
                (("explanation"), Json.str explanation)]⟩,
              [p1, p2, p3]⟩
  else
    ⟨⟨400, missingMessageBody⟩, []⟩

/-- Required prop names per component, as fixed by the spec's component
dictionary (§3) — the same dictionary the server embeds verbatim into its
planner and generator templates. -/
def requiredProps (name : String) : List String :=
  if name = "Button" then ["label"]
  else if name = "Card" then ["title", "content", "description"]
  else if name = "Input" then ["placeholder"]
  else if name = "Sidebar" then ["header", "items"]
  else if name = "Navbar" ∨ name = "Modal" ∨ name = "Chart" then ["title"]
  else []

/-- One Sidebar `items` entry must be an object with a non-empty `label`
string (spec §3). -/
def sidebarItemOk (v : Json) : Bool :=
  match jsonLookup v ("label") with
  | some (Json.str s) => s != ""
  | _ => false

/-- A required prop value is present and non-empty (spec §3: strings non-empty;
Sidebar's `items` a non-empty sequence of labelled entries). -/
def propValueOk (name prop : String) (v : Json) : Bool :=
  if name = "Sidebar" ∧ prop = "items" then
    match v with
    | Json.arr xs => !xs.isEmpty && xs.all sidebarItemOk
    | _ => false
  else
    match v with
    | Json.str s => s != ""
    | _ => false

/-- A plan component is schema-valid: its `name` is in the 7-name vocabulary
and every required prop for that name is present and non-empty (spec §3/§4.3;
the source contains no such validator, this predicate only states the spec's
invariant so that violations can be exhibited). -/
def componentOk (c : Json) : Bool :=
  match jsonLookup c ("name") with
  | some (Json.str n) =>
    ALLOWED_COMPONENTS.contains n &&
    (requiredProps n).all (fun p =>
      match jsonLookup c ("props") with
      | some props =>
        (match jsonLookup props p with
         | some v => propValueOk n p v
         | none => false)
      | none => false)
  | _ => false

/-- A plan is schema-valid: `type` is `create` or `modify` and every component
passes `componentOk` (spec §3/§4.3). -/
def planSchemaOk (plan : Json) : Bool :=
  (match jsonLookup plan ("type") with
   | some (Json.str t) => t == "create" || t == "modify"
   | _ => false) &&
  (match jsonLookup plan ("components") with
   | some (Json.arr cs) => cs.all componentOk
   | _ => false)

/-- A planner completion holding a minimal well-formed plan document. -/
def planTextOk : String := "\x7b\x22type\x22:\x22create\x22,\x22components\x22:[]\x7d"

/-- The document `planTextOk` parses to. -/
def parsedPlanOk : Json :=
  Json.obj [(("type"), Json.str ("create")), (("components"), Json.arr [])]

/-- A model-client stub whose three calls all succeed: a valid plan document,
then a code fragment, then explanation prose. -/
def stubAllOk : Nat → Except Unit String
  | 0 => Except.ok planTextOk
  | 1 => Except.ok ("FRAGMENT")
  | _ => Except.ok ("PROSE")

/-- A model-client stub whose planning call returns the literal text
`not json`. -/
def stubNotJson : Nat → Except Unit String
  | 0 => Except.ok ("not json")
  | _ => Except.ok ("unreached")

/-- A model-client stub that throws on every call (model unreachable). -/
def stubThrow : Nat → Except Unit String :=
  fun _ => Except.error ()

/-- A planner completion whose component name `Widget` is outside the 7-name
vocabulary. -/
def badPlanText : String :=
  "\x7b\x22type\x22:\x22create\x22,\x22components\x22:[\x7b\x22name\x22:\x22Widget\x22,\x22props\x22:\x7b\x7d\x7d]\x7d"

/-- The document `badPlanText` parses to. -/
def badPlanJson : Json :=
  Json.obj [(("type"), Json.str ("create")),
    (("components"), Json.arr
      [Json.obj [(("name"), Json.str ("Widget")), (("props"), Json.obj [])]])]

/-- A model-client stub whose planning call returns the out-of-vocabulary
plan `badPlanText` and whose later calls succeed. -/
def stubBadPlan : Nat → Except Unit String
  | 0 => Except.ok badPlanText
  | _ => Except.ok ("X")

/-- C1: when the message guard passes, the planner completion parses as JSON
and all three model-client calls succeed, the handler responds 200 with a
body holding exactly the fields `plan` (the parsed planner output), `code`
(the generator completion) and `explanation` (the explainer completion). -/
theorem success_response_shape (stub : Nat → Except Unit String) (m pc : JsValue)
    (t1 t2 t3 : String) (plan : Json)
    (hm : jsTruthy m = true)
    (h1 : stub 0 = Except.ok t1)
    (hp : jsonParse (jsTrim t1) = some plan)
    (h2 : stub 1 = Except.ok t2)
    (h3 : stub 2 = Except.ok t3) :
    (generateHandler stub ⟨m, pc⟩).response =
      ⟨200, Json.obj [(("plan"), plan), (("code"), Json.str t2),
        (("explanation"), Json.str t3)]⟩ := by
  simp [generateHandler, hm, h1, hp, h2, h3]

/-- C1 witness: the success shape at a concrete request and stub. -/
theorem success_response_shape_witness :
    (generateHandler stubAllOk ⟨JsValue.vStr ("make a dashboard"), JsValue.vNull⟩).response =
      ⟨200, Json.obj [(("plan"), parsedPlanOk), (("code"), Json.str ("FRAGMENT")),
        (("explanation"), Json.str ("PROSE"))]⟩ :=
  success_response_shape stubAllOk (JsValue.vStr ("make a dashboard")) JsValue.vNull
    planTextOk ("FRAGMENT") ("PROSE") parsedPlanOk rfl rfl rfl rfl rfl

/-- C2 counterexample: with the planner completion `not json` the handler's
error response is the flat generic `500 Internal server error` body — and it
is byte-identical to the response produced when the model client itself
throws, so it reports nothing specific to a malformed plan. -/
theorem malformed_plan_not_reported_cex :
    (generateHandler stubNotJson ⟨JsValue.vStr ("hi"), JsValue.vNull⟩).response =
      ⟨500, Json.obj [(("message"), Json.str ("Internal server error"))]⟩ ∧
    (generateHandler stubNotJson ⟨JsValue.vStr ("hi"), JsValue.vNull⟩).response =
      (generateHandler stubThrow ⟨JsValue.vStr ("hi"), JsValue.vNull⟩).response :=
  ⟨rfl, rfl⟩

/-- C2 (amended): when the planner completion does not parse as JSON, the
handler returns the generic 500 Internal-server-error response and exactly one
outbound call — the planner's — was made; the generation and explanation
stages are never invoked. -/
theorem malformed_plan_single_call (stub : Nat → Except Unit String) (m pc : JsValue)
    (t1 : String)
    (hm : jsTruthy m = true)
    (h1 : stub 0 = Except.ok t1)
    (hp : jsonParse (jsTrim t1) = none) :
    (generateHandler stub ⟨m, pc⟩).response = ⟨500, internalErrorBody⟩ ∧
    (generateHandler stub ⟨m, pc⟩).calls = [plannerPrompt m pc] := by
  simp [generateHandler, hm, h1, hp]

/-- C2 witness: the amended claim at the `not json` stub. -/
theorem malformed_plan_single_call_witness :
    (generateHandler stubNotJson ⟨JsValue.vStr ("hi"), JsValue.vNull⟩).response =
      ⟨500, internalErrorBody⟩ ∧
    (generateHandler stubNotJson ⟨JsValue.vStr ("hi"), JsValue.vNull⟩).calls =
      [plannerPrompt (JsValue.vStr ("hi")) JsValue.vNull] :=
  malformed_plan_single_call stubNotJson (JsValue.vStr ("hi")) JsValue.vNull
    ("not json") rfl rfl rfl

/-- C3: a request whose `message` is absent (destructures to `undefined`) or
the empty string is rejected with 400 and body
`\x7b "message": "Input message required" \x7d`, with zero outbound calls. -/
theorem missing_message_rejected (stub : Nat → Except Unit String) (m pc : JsValue)
    (hm : m = JsValue.vUndefined ∨ m = JsValue.vStr ("")) :
    generateHandler stub ⟨m, pc⟩ = ⟨⟨400, missingMessageBody⟩, []⟩ := by
  rcases hm with h | h <;> subst h <;> rfl

/-- C3 witness: the rejection at the empty-string message. -/
theorem missing_message_rejected_witness :
    generateHandler stubThrow ⟨JsValue.vStr (""), JsValue.vNull⟩ =
      ⟨⟨400, missingMessageBody⟩, []⟩ :=
  missing_message_rejected stubThrow (JsValue.vStr ("")) JsValue.vNull (Or.inr rfl)

/-- C4: whenever any stage fails after the message guard passed — the model
client throws on any of the three calls, or the planner completion fails to
parse — the handler responds 500 with body
`\x7b "message": "Internal server error" \x7d`, which carries none of the
fields `plan`, `code` or `explanation`: no partial result is returned. -/
theorem stage_failure_flat_internal_error (stub : Nat → Except Unit String)
    (m pc : JsValue)
    (hm : jsTruthy m = true)
    (hfail :
      stub 0 = Except.error () ∨
      (∃ t1, stub 0 = Except.ok t1 ∧ jsonParse (jsTrim t1) = none) ∨
      (∃ t1 plan, stub 0 = Except.ok t1 ∧ jsonParse (jsTrim t1) = some plan ∧
        stub 1 = Except.error ()) ∨
      (∃ t1 plan t2, stub 0 = Except.ok t1 ∧ jsonParse (jsTrim t1) = some plan ∧
        stub 1 = Except.ok t2 ∧ stub 2 = Except.error ())) :
    (generateHandler stub ⟨m, pc⟩).response = ⟨500, internalErrorBody⟩ ∧
    jsonLookup (generateHandler stub ⟨m, pc⟩).response.body ("plan") = none ∧
    jsonLookup (generateHandler stub ⟨m, pc⟩).response.body ("code") = none ∧
    jsonLookup (generateHandler stub ⟨m, pc⟩).response.body ("explanation") = none := by
  have hr : (generateHandler stub ⟨m, pc⟩).response = ⟨500, internalErrorBody⟩ := by
    rcases hfail with h | ⟨t1, h1, hp⟩ | ⟨t1, plan, h1, hp, h2⟩ |
      ⟨t1, plan, t2, h1, hp, h2, h3⟩ <;>
      simp [generateHandler, hm, *]
  refine ⟨hr, ?_, ?_, ?_⟩ <;> rw [hr] <;> rfl

/-- C4 witness: the flat 500 at an unreachable model client. -/
theorem stage_failure_flat_internal_error_witness :
    (generateHandler stubThrow ⟨JsValue.vStr ("hi"), JsValue.vNull⟩).response =
      ⟨500, internalErrorBody⟩ ∧
    jsonLookup (generateHandler stubThrow ⟨JsValue.vStr ("hi"), JsValue.vNull⟩).response.body
      ("plan") = none ∧
    jsonLookup (generateHandler stubThrow ⟨JsValue.vStr ("hi"), JsValue.vNull⟩).response.body
      ("code") = none ∧
    jsonLookup (generateHandler stubThrow ⟨JsValue.vStr ("hi"), JsValue.vNull⟩).response.body
      ("explanation") = none :=
  stage_failure_flat_internal_error stubThrow (JsValue.vStr ("hi")) JsValue.vNull
    rfl (Or.inl rfl)

/-- C5: the code violates the claim (and the repository README's statement
that the backend strictly validates component names): a parsed planner output
whose component name `Widget` is outside the 7-name vocabulary is NOT
rejected — the handler forwards it to the generation and explanation stages
(three calls are made) and returns it with status 200. -/
theorem invalid_plan_forwarded :
    jsonParse (jsTrim badPlanText) = some badPlanJson ∧
    planSchemaOk badPlanJson = false ∧
    (generateHandler stubBadPlan ⟨JsValue.vStr ("hi"), JsValue.vNull⟩).calls.length = 3 ∧
    (generateHandler stubBadPlan ⟨JsValue.vStr ("hi"), JsValue.vNull⟩).response.status = 200 ∧
    jsonLookup (generateHandler stubBadPlan ⟨JsValue.vStr ("hi"),
      JsValue.vNull⟩).response.body ("plan") = some badPlanJson :=
  ⟨rfl, rfl, rfl, rfl, rfl⟩

/-- C6: on an end-to-end success, exactly three model-client calls are made,
in the strict order planner, generator, explainer; the generator and explainer
prompts embed the serialized parsed plan (the earlier stage's result), the
planner prompt embeds the message, and the response fields `plan`, `code` and
`explanation` are populated exactly from the three completions. -/
theorem pipeline_order_and_data_flow (stub : Nat → Except Unit String) (m pc : JsValue)
    (t1 t2 t3 : String) (plan : Json)
    (hm : jsTruthy m = true)
    (h1 : stub 0 = Except.ok t1)
    (hp : jsonParse (jsTrim t1) = some plan)
    (h2 : stub 1 = Except.ok t2)
    (h3 : stub 2 = Except.ok t3) :
    (generateHandler stub ⟨m, pc⟩).calls =
      [plannerPrompt m pc, generatorPrompt plan pc, explainerPrompt plan] ∧
    (∃ a b, generatorPrompt plan pc = a ++ jsonStringify2 plan ++ b) ∧
    (∃ a b, explainerPrompt plan = a ++ jsonStringify2 plan ++ b) ∧
    (∃ a b, plannerPrompt m pc = a ++ jsToString m ++ b) ∧
    (generateHandler stub ⟨m, pc⟩).response =
      ⟨200, Json.obj [(("plan"), plan), (("code"), Json.str t2),
        (("explanation"), Json.str t3)]⟩ := by
  refine ⟨?_,
    ⟨generatorHeader, generatorMid ++ prevUIText pc ++ "\n", by
      simp [generatorPrompt, String.append_assoc]⟩,
    ⟨explainerHeader, "\n        ", by simp [explainerPrompt, String.append_assoc]⟩,
    ⟨plannerHeader, plannerMid ++ prevUIText pc ++ "\n", by
      simp [plannerPrompt, String.append_assoc]⟩, ?_⟩ <;>
    simp [generateHandler, hm, h1, hp, h2, h3]

/-- C6 witness: order and population at a concrete request and stub. -/
theorem pipeline_order_and_data_flow_witness :
    (generateHandler stubAllOk ⟨JsValue.vStr ("make a dashboard"), JsValue.vNull⟩).calls =
      [plannerPrompt (JsValue.vStr ("make a dashboard")) JsValue.vNull,
       generatorPrompt parsedPlanOk JsValue.vNull, explainerPrompt parsedPlanOk] ∧
    (∃ a b, generatorPrompt parsedPlanOk JsValue.vNull =
      a ++ jsonStringify2 parsedPlanOk ++ b) ∧
    (∃ a b, explainerPrompt parsedPlanOk = a ++ jsonStringify2 parsedPlanOk ++ b) ∧
    (∃ a b, plannerPrompt (JsValue.vStr ("make a dashboard")) JsValue.vNull =
      a ++ jsToString (JsValue.vStr ("make a dashboard")) ++ b) ∧
    (generateHandler stubAllOk ⟨JsValue.vStr ("make a dashboard"), JsValue.vNull⟩).response =
      ⟨200, Json.obj [(("plan"), parsedPlanOk), (("code"), Json.str ("FRAGMENT")),
        (("explanation"), Json.str ("PROSE"))]⟩ :=
  pipeline_order_and_data_flow stubAllOk (JsValue.vStr ("make a dashboard")) JsValue.vNull
    planTextOk ("FRAGMENT") ("PROSE") parsedPlanOk rfl rfl rfl rfl rfl

/-- C7: the three prompt builders are pure and deterministic — two invocations
with identical structured inputs (message, previousCode, plan) render
byte-identical prompt strings (string equality in this model is byte
identity). -/
theorem prompt_builders_deterministic (m1 m2 pc1 pc2 : JsValue) (pl1 pl2 : Json)
    (hm : m1 = m2) (hpc : pc1 = pc2) (hpl : pl1 = pl2) :
    plannerPrompt m1 pc1 = plannerPrompt m2 pc2 ∧
    generatorPrompt pl1 pc1 = generatorPrompt pl2 pc2 ∧
    explainerPrompt pl1 = explainerPrompt pl2 := by
  subst hm; subst hpc; subst hpl
  exact ⟨rfl, rfl, rfl⟩

/-- C7 witness: determinism at concrete inputs. -/
theorem prompt_builders_deterministic_witness :
    plannerPrompt (JsValue.vStr ("x")) JsValue.vNull =
      plannerPrompt (JsValue.vStr ("x")) JsValue.vNull ∧
    generatorPrompt parsedPlanOk JsValue.vNull = generatorPrompt parsedPlanOk JsValue.vNull ∧
    explainerPrompt parsedPlanOk = explainerPrompt parsedPlanOk :=
  prompt_builders_deterministic (JsValue.vStr ("x")) (JsValue.vStr ("x"))
    JsValue.vNull JsValue.vNull parsedPlanOk parsedPlanOk rfl rfl rfl

/-- C8: the generator prompt embeds a string `previousCode` verbatim in its
PREVIOUS UI section, and when `previousCode` is null and the plan's type is
`create` the section holds the explicit `None` marker (no prior content). -/
theorem generator_prompt_previous_ui (plan : Json) (pc : JsValue) :
    (∀ s, pc = JsValue.vStr s → ∃ a b, generatorPrompt plan pc = a ++ s ++ b) ∧
    (pc = JsValue.vNull → jsonLookup plan ("type") = some (Json.str ("create")) →
      ∃ a, generatorPrompt plan pc = a ++ ("PREVIOUS UI:\nNone\n")) := by
  constructor
  · intro s hs
    subst hs
    by_cases h : s = ""
    · subst h
      refine ⟨generatorHeader ++ jsonStringify2 plan ++ generatorMid, "None" ++ "\n", ?_⟩
      simp [generatorPrompt, prevUIText, jsOr, jsTruthy, jsToString, String.append_assoc]
    · refine ⟨generatorHeader ++ jsonStringify2 plan ++ generatorMid, "\n", ?_⟩
      have ht : jsTruthy (JsValue.vStr s) = true := by
        simp [jsTruthy, h]
      simp [generatorPrompt, prevUIText, jsOr, ht, jsToString, String.append_assoc]
  · intro hpc _
    subst hpc
    refine ⟨generatorHeader ++ jsonStringify2 plan ++ "\n\n", ?_⟩
    show generatorHeader ++ jsonStringify2 plan ++ generatorMid ++
      prevUIText JsValue.vNull ++ "\n" = _
    rw [show prevUIText JsValue.vNull = "None" from rfl,
      show generatorMid = "\n\n" ++ "PREVIOUS UI:\n" from rfl,
      show ("PREVIOUS UI:\nNone\n" : String) = "PREVIOUS UI:\n" ++ "None" ++ "\n" from rfl]
    simp [String.append_assoc]

/-- C8 witness: verbatim embedding for a concrete prior artifact, and the
`None` marker for a null one under a `create` plan. -/
theorem generator_prompt_previous_ui_witness :
    (∃ a b, generatorPrompt parsedPlanOk (JsValue.vStr ("<Card title=\x22t\x22 />")) =
      a ++ ("<Card title=\x22t\x22 />") ++ b) ∧
    (∃ a, generatorPrompt parsedPlanOk JsValue.vNull = a ++ ("PREVIOUS UI:\nNone\n")) :=
  ⟨(generator_prompt_previous_ui parsedPlanOk (JsValue.vStr ("<Card title=\x22t\x22 />"))).1
      ("<Card title=\x22t\x22 />") rfl,
   (generator_prompt_previous_ui parsedPlanOk JsValue.vNull).2 rfl rfl⟩

/-- C9: the message guard is plain JavaScript truthiness — a falsy `message`
of any type is rejected with the 400 response and no calls, while any truthy
`message` of any type (whitespace-only string, number, object, ...) passes
the guard, is never answered with 400, and is coerced and interpolated
directly into the planner prompt, which is the first outbound call. -/
theorem message_guard_is_truthiness (stub : Nat → Except Unit String) (m pc : JsValue) :
    (jsTruthy m = false →
      generateHandler stub ⟨m, pc⟩ = ⟨⟨400, missingMessageBody⟩, []⟩) ∧
    (jsTruthy m = true →
      (generateHandler stub ⟨m, pc⟩).response.status ≠ 400 ∧
      (generateHandler stub ⟨m, pc⟩).calls.head? = some (plannerPrompt m pc) ∧
      ∃ a b, plannerPrompt m pc = a ++ jsToString m ++ b) := by
  constructor
  · intro h
    simp [generateHandler, h]
  · intro h
    have hx : (generateHandler stub ⟨m, pc⟩).response.status ≠ 400 ∧
        (generateHandler stub ⟨m, pc⟩).calls.head? = some (plannerPrompt m pc) := by
      cases h0 : stub 0 with
      | error e => simp [generateHandler, h, h0]
      | ok t1 =>
        cases hp : jsonParse (jsTrim t1) with
        | none => simp [generateHandler, h, h0, hp]
        | some plan =>
          cases h1 : stub 1 with
          | error e => simp [generateHandler, h, h0, hp, h1]
          | ok t2 =>
            cases h2 : stub 2 with
            | error e => simp [generateHandler, h, h0, hp, h1, h2]
            | ok t3 => simp [generateHandler, h, h0, hp, h1, h2]
    exact ⟨hx.1, hx.2,
      ⟨plannerHeader, plannerMid ++ prevUIText pc ++ "\n", by
        simp [plannerPrompt, String.append_assoc]⟩⟩

/-- C9 witness: a whitespace-only message passes the guard and reaches the
planner prompt; the number 0 is rejected as falsy. -/
theorem message_guard_is_truthiness_witness :
    ((generateHandler stubAllOk ⟨JsValue.vStr (" "), JsValue.vNull⟩).response.status ≠ 400 ∧
      (generateHandler stubAllOk ⟨JsValue.vStr (" "), JsValue.vNull⟩).calls.head? =
        some (plannerPrompt (JsValue.vStr (" ")) JsValue.vNull) ∧
      ∃ a b, plannerPrompt (JsValue.vStr (" ")) JsValue.vNull =
        a ++ jsToString (JsValue.vStr (" ")) ++ b) ∧
    generateHandler stubAllOk ⟨JsValue.vNum 0, JsValue.vNull⟩ =
      ⟨⟨400, missingMessageBody⟩, []⟩ :=
  ⟨(message_guard_is_truthiness stubAllOk (JsValue.vStr (" ")) JsValue.vNull).2 rfl,
   (message_guard_is_truthiness stubAllOk (JsValue.vNum 0) JsValue.vNull).1 rfl⟩

/-- C10: with `previousCode` the empty string, the planner and generator
prompts are byte-identical to those rendered for `previousCode = null`, and in
both cases the PREVIOUS UI section holds the literal `None` marker, because
the `previousCode || "None"` fallback tests truthiness, not presence. -/
theorem empty_previous_code_prompts (m : JsValue) (plan : Json) :
    plannerPrompt m (JsValue.vStr ("")) = plannerPrompt m JsValue.vNull ∧
    generatorPrompt plan (JsValue.vStr ("")) = generatorPrompt plan JsValue.vNull ∧
    (∃ a, plannerPrompt m (JsValue.vStr ("")) = a ++ ("PREVIOUS UI:\nNone\n")) ∧
    (∃ a, generatorPrompt plan (JsValue.vStr ("")) = a ++ ("PREVIOUS UI:\nNone\n")) := by
  refine ⟨rfl, rfl, ⟨plannerHeader ++ jsToString m ++ "\x22\n\n", ?_⟩,
    ⟨generatorHeader ++ jsonStringify2 plan ++ "\n\n", ?_⟩⟩
  · show plannerHeader ++ jsToString m ++ plannerMid ++
      prevUIText (JsValue.vStr ("")) ++ "\n" = _
    rw [show prevUIText (JsValue.vStr ("")) = "None" from rfl,
      show plannerMid = "\x22\n\n" ++ "PREVIOUS UI:\n" from rfl,
      show ("PREVIOUS UI:\nNone\n" : String) = "PREVIOUS UI:\n" ++ "None" ++ "\n" from rfl]
    simp [String.append_assoc]
  · show generatorHeader ++ jsonStringify2 plan ++ generatorMid ++
      prevUIText (JsValue.vStr ("")) ++ "\n" = _
    rw [show prevUIText (JsValue.vStr ("")) = "None" from rfl,
      show generatorMid = "\n\n" ++ "PREVIOUS UI:\n" from rfl,
      show ("PREVIOUS UI:\nNone\n" : String) = "PREVIOUS UI:\n" ++ "None" ++ "\n" from rfl]
    simp [String.append_assoc]

end UIGenBackend
